import Mathlib

/-!
Verification development for the `pyPrivnote` client model
(`src/pyPrivnote/model.py`).  The Python class `PrivMessage` is shallowly
embedded: its attribute state becomes a Lean structure, property getters and
setters become functions, raised exceptions become an error type, and the
two HTTP-issuing methods are modelled as functions parameterised by the
module's name bindings and by transport oracles.  Python dynamic values that
can flow through the untyped attributes are modelled by `PyVal`, with
Python's truthiness rules made explicit.
-/

namespace PyPrivnote

/-- Model of the Python values that flow through the untyped attributes of
`PrivMessage` (str, bytes, bytearray, int, bool, None).  Byte objects are
modelled as lists of byte values; `bytes` and `bytearray` are distinct
constructors because `isinstance` distinguishes them: `bytearray` is not a
subclass of `bytes`, so it passes `(bytes, bytearray)` checks but fails
`(str, bytes)` checks. -/
inductive PyVal where
  | vnone
  | vstr (s : String)
  | vbytes (b : List Nat)
  | vbytearray (b : List Nat)
  | vint (n : Int)
  | vbool (b : Bool)
  deriving DecidableEq, Repr

/-- Python truthiness (`bool(v)`) for the modelled values: `None`, `""`,
`b""`, `bytearray(b"")`, `0` and `False` are falsy, everything else is
truthy. -/
def PyVal.truthy : PyVal → Bool
  | .vnone => false
  | .vstr s => !(s == "")
  | .vbytes b => !(b == [])
  | .vbytearray b => !(b == [])
  | .vint n => !(n == 0)
  | .vbool b => b

/-- Conversion a Python f-string or `str()` applies to a value (only the
cases the embedding needs; used when a value is interpolated into a link). -/
def PyVal.pyFormat : PyVal → String
  | .vnone => "None"
  | .vstr s => s
  | .vbytes _ => "bytes"
  | .vbytearray _ => "bytearray"
  | .vint n => toString n
  | .vbool true => "True"
  | .vbool false => "False"

/-- UTF-8 encoding of one character, as byte values (model of the encoder
behind Python's `str.encode("utf-8")`). -/
def utf8EncodeChar (c : Char) : List Nat :=
  let n := c.toNat
  if n < 128 then [n]
  else if n < 2048 then [192 + n / 64, 128 + n % 64]
  else if n < 65536 then [224 + n / 4096, 128 + (n / 64) % 64, 128 + n % 64]
  else [240 + n / 262144, 128 + (n / 4096) % 64, 128 + (n / 64) % 64, 128 + n % 64]

/-- UTF-8 encoding of a string as byte values (Python `str.encode("utf-8")`). -/
def utf8Encode (s : String) : List Nat :=
  (s.data.map utf8EncodeChar).flatten

/-- State of the UTF-8 decoding automaton used to model Python's
`bytes.decode()`. -/
structure Utf8St where
  acc : List Char := []
  need : Nat := 0
  cp : Nat := 0
  minv : Nat := 0
  bad : Bool := false
  deriving DecidableEq, Repr

/-- One step of the UTF-8 decoding automaton on the next byte. -/
def utf8Step (st : Utf8St) (b : Nat) : Utf8St :=
  if st.bad then st
  else if st.need = 0 then
    if b < 128 then { st with acc := Char.ofNat b :: st.acc }
    else if b < 192 then { st with bad := true }
    else if b < 224 then { st with need := 1, cp := b - 192, minv := 128 }
    else if b < 240 then { st with need := 2, cp := b - 224, minv := 2048 }
    else if b < 248 then { st with need := 3, cp := b - 240, minv := 65536 }
    else { st with bad := true }
  else
    if 128 ≤ b ∧ b < 192 then
      let cp := st.cp * 64 + (b - 128)
      if st.need = 1 then
        if cp < st.minv ∨ (55296 ≤ cp ∧ cp ≤ 57343) ∨ 1114111 < cp then
          { st with bad := true }
        else { st with acc := Char.ofNat cp :: st.acc, need := 0, cp := 0 }
      else { st with need := st.need - 1, cp := cp }
    else { st with bad := true }

/-- UTF-8 decoding of a byte list (model of Python's `bytes.decode()`,
which raises `UnicodeDecodeError` on invalid data — here `none`). -/
def utf8Decode (l : List Nat) : Option String :=
  let st := l.foldl utf8Step {}
  if st.bad ∨ st.need ≠ 0 then none else some ⟨st.acc.reverse⟩

/-- Whether the first list is a leading run of the second (used to model
`str.startswith` and substring search; implemented structurally so that
concrete instances reduce in the kernel). -/
def isLeadOf : List Char → List Char → Bool
  | [], _ => true
  | _ :: _, [] => false
  | a :: as, b :: bs => a == b && isLeadOf as bs

/-- Model of `s.startswith(p)`. -/
def strLeads (s p : String) : Bool :=
  isLeadOf p.data s.data

/-- Worker for `pySplit`: fuel-indexed structural recursion over the
character list (the fuel starts at the list length, which every step
strictly decreases, so the fuel never runs out on the inputs used). -/
def splitListAux (sep : List Char) : Nat → List Char → List Char → List (List Char)
  | _, [], cur => [cur.reverse]
  | 0, l, cur => [cur.reverse ++ l]
  | fuel + 1, c :: rest, cur =>
    if isLeadOf sep (c :: rest) then
      cur.reverse :: splitListAux sep fuel ((c :: rest).drop sep.length) []
    else
      splitListAux sep fuel rest (c :: cur)

/-- Model of Python `s.split(sep)` for a nonempty separator: cuts at every
occurrence of `sep`, scanning left to right. -/
def pySplit (s sep : String) : List String :=
  (splitListAux sep.data s.data.length s.data []).map fun l => ⟨l⟩

/-- Worker for `pyReplace` (same fuel discipline as `splitListAux`). -/
def replaceListAux (old new : List Char) : Nat → List Char → List Char
  | _, [] => []
  | 0, l => l
  | fuel + 1, c :: rest =>
    if isLeadOf old (c :: rest) then
      new ++ replaceListAux old new fuel ((c :: rest).drop old.length)
    else c :: replaceListAux old new fuel rest

/-- Model of Python `s.replace(old, new)` for a nonempty `old`. -/
def pyReplace (s old new : String) : String :=
  ⟨replaceListAux old.data new.data s.data.length s.data⟩

/-- Timestamp record produced by `datetime.strptime` (only the components
the format string `"%Y-%m-%dT%H:%M:%S.%f"` populates). -/
structure DateTime where
  year : Nat
  month : Nat
  day : Nat
  hour : Nat
  minute : Nat
  second : Nat
  microsecond : Nat
  deriving DecidableEq, Repr

/-- Numeric value of a nonempty all-digit string, `none` otherwise. -/
def digitsVal (s : String) : Option Nat :=
  if s.data ≠ [] ∧ s.data.all (·.isDigit) then
    some (s.data.foldl (fun a c => a * 10 + (c.toNat - 48)) 0)
  else none

/-- Whether a year is a Gregorian leap year. -/
def isLeapYear (y : Nat) : Bool :=
  y % 4 == 0 && (y % 100 != 0 || y % 400 == 0)

/-- Number of days in the given month of the given year. -/
def daysInMonth (y mo : Nat) : Nat :=
  if mo = 2 then (if isLeapYear y then 29 else 28)
  else if mo = 4 ∨ mo = 6 ∨ mo = 9 ∨ mo = 11 then 30
  else 31

/-- Model of `datetime.strptime(s, "%Y-%m-%dT%H:%M:%S.%f")`: a 4-digit year,
1-2 digit month/day/hour/minute/second and a 1-6 digit fraction that is
right-padded to microseconds, validated as the `datetime` constructor does
(year at least MINYEAR = 1, month 1-12, a calendar-valid day for that month
and year, hour at most 23, minute and second at most 59).  A string that
does not match or fails validation raises `ValueError` in Python — here
`none`. -/
def strptime_iso (s : String) : Option DateTime :=
  match pySplit s "T" with
  | [date, time] =>
    match pySplit date "-", pySplit time ":" with
    | [ys, ms, ds], [hs, mins, secfrac] =>
      match pySplit secfrac "." with
      | [ss, fs] =>
        match digitsVal ys, digitsVal ms, digitsVal ds,
              digitsVal hs, digitsVal mins, digitsVal ss, digitsVal fs with
        | some y, some mo, some d, some h, some mi, some sec, some f =>
          if ys.length = 4 ∧ ms.length ≤ 2 ∧ ds.length ≤ 2 ∧ hs.length ≤ 2
              ∧ mins.length ≤ 2 ∧ ss.length ≤ 2
              ∧ 1 ≤ y ∧ 1 ≤ mo ∧ mo ≤ 12 ∧ 1 ≤ d ∧ d ≤ daysInMonth y mo
              ∧ h ≤ 23 ∧ mi ≤ 59 ∧ sec ≤ 59
              ∧ 1 ≤ fs.length ∧ fs.length ≤ 6 then
            some ⟨y, mo, d, h, mi, sec, f * 10 ^ (6 - fs.length)⟩
          else none
        | _, _, _, _, _, _, _ => none
      | _ => none
    | _, _ => none
  | _ => none

/-- Errors observable from the embedded methods.  The first group models
Python built-in exceptions; the second group models the exception classes
the module star-imports from its `exceptions` module (that module is not
under `src/`; its classes and payloads are modelled from the spec's error
taxonomy and from the constructor keywords used in `model.py`).
`secretRequired` models the spec taxonomy's `SecretRequiredError`; no code
path in `model.py` produces it. -/
inductive PyErr where
  | nameError (n : String)
  | typeError (msg : String)
  | attributeError (msg : String)
  | valueError (msg : String)
  | keyError (k : String)
  | indexError
  | unicodeDecodeError
  | incorrectID (note_id : Option String)
  | noteDestroyed (note_id : Option String) (destroyed : DateTime)
  | privnoteException (msg : String)
  | incorrectPassword (note_id : Option String)
  | secretRequired
  deriving DecidableEq, Repr

/-- JSON object returned by the privnote server, restricted to the four keys
`model.py` ever reads (`data`, `destroyed`, `note_link`, `has_manual_pass`);
a `none` field models an absent key.  Dict truthiness is modelled over these
four keys. -/
structure PNResponse where
  data : Option PyVal := none
  destroyed : Option PyVal := none
  note_link : Option PyVal := none
  has_manual_pass : Option PyVal := none
  deriving DecidableEq, Repr

/-- Truthiness of the response dict (nonempty over the modelled keys). -/
def PNResponse.truthy (r : PNResponse) : Bool :=
  r.data.isSome || r.destroyed.isSome || r.note_link.isSome || r.has_manual_pass.isSome

/-- Python `d.get(k)`: the value when the key is present, `None` otherwise. -/
def dictGet (o : Option PyVal) : PyVal :=
  o.getD .vnone

/-- Settings dict assembled by `PrivMessage.set_settings`
(keys in source order). -/
structure Settings where
  data_type : String
  has_manual_pass : String
  duration_hours : Int
  dont_ask : String
  notify_email : PyVal
  notify_ref : String
  deriving DecidableEq, Repr

/-- Attribute state of a `PrivMessage` instance (field names follow
`PrivMessage.__init__`).  `_password` holds a `PyVal` because the link
setter writes a `str` or `None` into it while the password setter writes
`bytes`; `_crypt_text` likewise holds whatever the read path stores. -/
structure PrivMessage where
  _plain_text : Option String := none
  _crypt_text : Option PyVal := none
  _link : Option String := none
  _id : Option String := none
  _password : PyVal := .vnone
  _is_crypted : Bool := false
  _settings : Option Settings := none
  _response : Option PNResponse := none
  deriving DecidableEq, Repr

/-- Freshly constructed note (`PrivMessage.__init__`). -/
def PrivMessage.new : PrivMessage := {}

/-- Getter of the `password` property: raises `ValueError` when `_password`
is falsy, otherwise returns `self._password.decode()` (which is an
`AttributeError` when `_password` holds a `str`, as the link setter can
leave there). -/
def PrivMessage.password (m : PrivMessage) : Except PyErr String :=
  if m._password.truthy then
    match m._password with
    | .vbytes b =>
      match utf8Decode b with
      | some s => .ok s
      | none => .error .unicodeDecodeError
    | .vbytearray b =>
      match utf8Decode b with
      | some s => .ok s
      | none => .error .unicodeDecodeError
    | .vstr _ => .error (.attributeError "str object has no attribute decode")
    | _ => .error (.attributeError "object has no attribute decode")
  else .error (.valueError "No password set, this note requires a password!")

/-- Setter of the `password` property: a `str` is stored UTF-8 encoded, a
value passing `isinstance(value, (bytes, bytearray))` is stored as is, and
any other value falls through both `isinstance` branches, leaving the state
untouched. -/
def PrivMessage.password_set (m : PrivMessage) (value : PyVal) : PrivMessage :=
  match value with
  | .vstr s => { m with _password := .vbytes (utf8Encode s) }
  | .vbytes b => { m with _password := .vbytes b }
  | .vbytearray b => { m with _password := .vbytearray b }
  | _ => m

/-- Getter of the `link` property: evaluates
`self._response['note_link'] if self._response and self._response["has_manual_pass"]
else f"{self._response['note_link']}#{self.password}"`. -/
def PrivMessage.link (m : PrivMessage) : Except PyErr PyVal :=
  let cond : Except PyErr Bool :=
    match m._response with
    | none => .ok false
    | some r =>
      if r.truthy then
        match r.has_manual_pass with
        | none => .error (.keyError "has_manual_pass")
        | some v => .ok v.truthy
      else .ok false
  match cond with
  | .error e => .error e
  | .ok true =>
    match m._response with
    | some r =>
      match r.note_link with
      | none => .error (.keyError "note_link")
      | some v => .ok v
    | none => .error (.keyError "note_link")
  | .ok false =>
    match m._response with
    | none => .error (.typeError "NoneType object is not subscriptable")
    | some r =>
      match r.note_link with
      | none => .error (.keyError "note_link")
      | some nl =>
        match PrivMessage.password m with
        | .error e => .error e
        | .ok pw => .ok (.vstr (nl.pyFormat ++ "#" ++ pw))

/-- Setter of the `link` property: when the value starts with
`"privnote.com/"` it is replaced by `value.split("https://privnote.com/")[1]`
(an `IndexError` when that separator does not occur), then `_id` and
`_password` are assigned from `value.split("#", maxsplit=1)` when a `#` is
present, else `(value, None)`. -/
def PrivMessage.link_set (m : PrivMessage) (value : String) : Except PyErr PrivMessage :=
  let stripped : Except PyErr String :=
    if strLeads value "privnote.com/" then
      match (pySplit value "https://privnote.com/").get? 1 with
      | some t => .ok t
      | none => .error .indexError
    else .ok value
  match stripped with
  | .error e => .error e
  | .ok v =>
    if v.data.contains '#' then
      match pySplit v "#" with
      | [] => .ok { m with _id := some v, _password := .vstr "" }
      | a :: rest =>
        .ok { m with _id := some a, _password := .vstr (String.intercalate "#" rest) }
    else .ok { m with _id := some v, _password := .vnone }

/-- Fallback of the `id` getter when `self._id` is falsy:
`self._response['note_link'].replace("https://privnote.com/", "")`. -/
def PrivMessage.id_fallback (m : PrivMessage) : Except PyErr String :=
  match m._response with
  | none => .error (.typeError "NoneType object is not subscriptable")
  | some r =>
    match r.note_link with
    | none => .error (.keyError "note_link")
    | some (.vstr s) => .ok (pyReplace s "https://privnote.com/" "")
    | some _ => .error (.attributeError "object has no attribute replace")

/-- Getter of the `id` property: `self._id or
self._response['note_link'].replace("https://privnote.com/", "")`. -/
def PrivMessage.id (m : PrivMessage) : Except PyErr String :=
  match m._id with
  | some s => if s ≠ "" then .ok s else PrivMessage.id_fallback m
  | none => PrivMessage.id_fallback m

/-- Setter of the `id` property: stores the value and writes the derived
link string into `_link`. -/
def PrivMessage.id_set (m : PrivMessage) (value : String) : PrivMessage :=
  { m with _id := some value, _link := some ("https://privnote.com/" ++ value) }

/-- One HTTP call as the embedded methods would issue it: the method name
and the first positional argument (the URL value). -/
structure HttpCall where
  method : String
  url : PyVal
  deriving DecidableEq, Repr

/-- Names bound at the top level of `model.py` by its own statements: the
four `from … import` lists, the star import, the module-level `session`
assignment and the class statement.  The `exceptions` module is not under
`src/`; the names its star import contributes are modelled from the spec's
error taxonomy and the exception classes `model.py` raises — nothing
suggests it binds `requests`, and no other statement binds `requests`. -/
def moduleBindings : List String :=
  ["Union", "Optional", "Dict", "datetime", "Session",
   "PrivnoteException", "IncorrectIDException", "NoteDestroyedException",
   "IncorrectPasswordException", "HEADERS", "is_email", "score_password",
   "dec", "enc", "session", "PrivMessage"]

/-- Processing `read_and_destroy` applies to the destructive-read response:
`self._response = resp.json()` (an unparseable body raises `ValueError`,
caught and re-raised as `IncorrectIDException`); then `if not
self._response.get("data")`, a truthy `destroyed` value is fed to
`datetime.strptime` and raised inside `NoteDestroyedException`, otherwise
`PrivnoteException("No data in response")`; a truthy `data` value is stored
into `_crypt_text`.  Returns the updated state and the raised error, if
any. -/
def process_read_response (j : Option PNResponse) (m : PrivMessage) :
    PrivMessage × Option PyErr :=
  match j with
  | none => (m, some (.incorrectID m._id))
  | some r =>
    let m1 := { m with _response := some r }
    if (dictGet r.data).truthy then
      ({ m1 with _crypt_text := r.data }, none)
    else if (dictGet r.destroyed).truthy then
      match r.destroyed with
      | some (.vstr s) =>
        match strptime_iso s with
        | some dt => (m1, some (.noteDestroyed m1._id dt))
        | none => (m1, some (.valueError "time data does not match format"))
      | _ => (m1, some (.typeError "strptime argument 1 must be str"))
    else (m1, some (.privnoteException "No data in response"))

/-- The `read_and_destroy` method.  `env` is the set of global names in
scope and `sess`/`http` are the transports behind the module-level
`session` object and a hypothetical `requests` module; the body resolves
the callable `requests.delete` first (Python evaluates the callee before
the arguments), so an unbound `requests` raises `NameError` before
`self.link` is read, and the module `session` is never consulted.  Returns
the final state, the calls issued, and the raised error, if any. -/
def read_and_destroy (env : List String) (_sess http : HttpCall → Option PNResponse)
    (m : PrivMessage) : PrivMessage × List HttpCall × Option PyErr :=
  if "requests" ∈ env then
    match PrivMessage.link m with
    | .error e => (m, [], some e)
    | .ok v =>
      let call : HttpCall := ⟨"DELETE", v⟩
      let res := process_read_response (http call) m
      (res.1, [call], res.2)
  else (m, [], some (.nameError "requests"))

/-- The `send` method.  The dict display
`{**self._settings, 'data': self._crypt_text.decode()}` is evaluated first
(`TypeError` when `_settings` is `None`, `AttributeError` when
`_crypt_text` is `None` or a `str`, `UnicodeDecodeError` on undecodable
bytes); only then is the callable `requests.post` resolved, so an unbound
`requests` raises `NameError` with no request issued; a well-formed
response is stored into `_response`, an unparseable one raises
`ValueError` out of `response.json()`.  The module `session` is never
consulted. -/
def send (env : List String) (_sess http : HttpCall → Option PNResponse)
    (m : PrivMessage) : PrivMessage × List HttpCall × Option PyErr :=
  match m._settings with
  | none => (m, [], some (.typeError "argument of type NoneType is not a mapping"))
  | some _ =>
    match m._crypt_text with
    | none => (m, [], some (.attributeError "NoneType object has no attribute decode"))
    | some (.vstr _) => (m, [], some (.attributeError "str object has no attribute decode"))
    | some (.vbytes b) =>
      match utf8Decode b with
      | none => (m, [], some .unicodeDecodeError)
      | some _ =>
        if "requests" ∈ env then
          let call : HttpCall := ⟨"POST", .vstr "https://privnote.com/legacy/"⟩
          match http call with
          | none => (m, [call], some (.valueError "response body is not JSON"))
          | some r => ({ m with _response := some r }, [call], none)
        else (m, [], some (.nameError "requests"))
    | some (.vbytearray b) =>
      match utf8Decode b with
      | none => (m, [], some .unicodeDecodeError)
      | some _ =>
        if "requests" ∈ env then
          let call : HttpCall := ⟨"POST", .vstr "https://privnote.com/legacy/"⟩
          match http call with
          | none => (m, [call], some (.valueError "response body is not JSON"))
          | some r => ({ m with _response := some r }, [call], none)
        else (m, [], some (.nameError "requests"))
    | some _ => (m, [], some (.attributeError "object has no attribute decode"))

/-- The duration guard of `set_settings`:
`duration_hours is not None and duration_hours > 720`. -/
def durationTooLong : Option Int → Bool
  | none => false
  | some d => 720 < d

/-- The `set_settings` method.  `ie` models the external `is_email`
validator and `gen` the string `score_password()` returns (both live in the
`util` module, which is not under `src/`; they are modelled from the spec
as an opaque well-formedness check and an opaque generated password).  The
body chooses `manual_pass` as the password exactly when it is a `str` or
bytes-like value, stringifies the truthiness of `manual_pass` into
`has_manual_pass`, validates the duration, defaults `duration_hours or 0`,
validates a truthy `notify_email`, and only then assigns `_plain_text`,
the password (through the property setter) and `_settings`. -/
def set_settings (ie : PyVal → Bool) (gen : String) (m : PrivMessage)
    (data : String) (manual_pass : PyVal) (duration_hours : Option Int)
    (ask_confirm : Bool) (notify_email : PyVal) (email_ref_name : String) :
    Except PyErr PrivMessage :=
  let password : PyVal :=
    match manual_pass with
    | .vstr _ => manual_pass
    | .vbytes _ => manual_pass
    | _ => .vstr gen
  let hmp : String := if manual_pass.truthy then "true" else "false"
  if durationTooLong duration_hours then
    .error (.valueError "Duration hours cannot exceed 720.")
  else
    let emailFields : Except PyErr (PyVal × String) :=
      if notify_email.truthy then
        if ie notify_email then .ok (notify_email, email_ref_name)
        else .error (.valueError "Notify email is incorrect!")
      else .ok (.vstr "", "")
    match emailFields with
    | .error e => .error e
    | .ok (ne, nr) =>
      let st : Settings :=
        { data_type := "T"
          has_manual_pass := hmp
          duration_hours := duration_hours.getD 0
          dont_ask := if ask_confirm then "False" else "True"
          notify_email := ne
          notify_ref := nr }
      let m1 := { m with _plain_text := some data }
      let m2 := PrivMessage.password_set m1 password
      .ok { m2 with _settings := some st }

/-- Modelled from the spec: outcome of one call to the external cipher
primitive `dec` (the `crypt` module is not under `src/`).  Per the spec it
returns the decrypted string or fails with a value-domain error; any
failure outside `ValueError` is also representable. -/
inductive DecOutcome where
  | ok (s : String)
  | valueError
  | otherError
  deriving DecidableEq, Repr

/-- Modelled from the spec: outcome of one call to the external cipher
primitive `enc` (the `crypt` module is not under `src/`). -/
inductive EncOutcome where
  | ok (b : List Nat)
  | valueError
  | otherError
  deriving DecidableEq, Repr

/-- The `decrypt` method: `self._plain_text = dec(self._crypt_text,
self._password)` with only `ValueError` caught and re-raised as
`IncorrectPasswordException(note_id=self._id)`; the method performs no
check of its own on `_password`. -/
def decrypt (prim : DecOutcome) (m : PrivMessage) : Except PyErr PrivMessage :=
  match prim with
  | .ok s => .ok { m with _plain_text := some s }
  | .valueError => .error (.incorrectPassword m._id)
  | .otherError => .error (.typeError "cipher primitive failure outside ValueError")

/-- The `encrypt` method: `self._crypt_text = enc(self._plain_text,
self._password)` with only `ValueError` caught and re-raised as
`IncorrectPasswordException(note_id=self._id)`. -/
def encrypt (prim : EncOutcome) (m : PrivMessage) : Except PyErr PrivMessage :=
  match prim with
  | .ok b => .ok { m with _crypt_text := some (.vbytes b) }
  | .valueError => .error (.incorrectPassword m._id)
  | .otherError => .error (.typeError "cipher primitive failure outside ValueError")

/-- Whether a value passes the `isinstance(value, (str, bytes))` check of
`set_settings`: a bytearray does not (it is not a subclass of bytes). -/
def isStrOrBytes : PyVal → Bool
  | .vstr _ => true
  | .vbytes _ => true
  | _ => false

/-- Whether a value reaches either branch of the password property setter,
that is, passes `isinstance(value, str)` or
`isinstance(value, (bytes, bytearray))`. -/
def isStrOrByteLike : PyVal → Bool
  | .vstr _ => true
  | .vbytes _ => true
  | .vbytearray _ => true
  | _ => false

/-- What the password property setter stores for a str or bytes input. -/
def pwBytesOf : PyVal → PyVal
  | .vstr s => .vbytes (utf8Encode s)
  | .vbytes b => .vbytes b
  | v => v

/-- The password `set_settings` selects: `manual_pass` when it is a str or
bytes-like value, otherwise the generated `score_password()` string. -/
def pwChoice (mp : PyVal) (gen : String) : PyVal :=
  match mp with
  | .vstr _ => mp
  | .vbytes _ => mp
  | _ => .vstr gen

/-- The module's global namespace does not bind `requests`. -/
theorem requests_unbound : ("requests" ∈ moduleBindings) = False := by
  simp [moduleBindings]

/-- Closed form of `set_settings`: the duration guard, then the email
guard, then the fully determined state update. -/
theorem set_settings_characterization (ie : PyVal → Bool) (gen : String) (m : PrivMessage)
    (data : String) (mp : PyVal) (dh : Option Int) (ac : Bool) (ne : PyVal) (ern : String) :
    set_settings ie gen m data mp dh ac ne ern
      = if durationTooLong dh then
          .error (.valueError "Duration hours cannot exceed 720.")
        else if ne.truthy = true ∧ ie ne = false then
          .error (.valueError "Notify email is incorrect!")
        else
          .ok { PrivMessage.password_set { m with _plain_text := some data } (pwChoice mp gen) with
                _settings := some
                  { data_type := "T"
                    has_manual_pass := if mp.truthy then "true" else "false"
                    duration_hours := dh.getD 0
                    dont_ask := if ac then "False" else "True"
                    notify_email := if ne.truthy then ne else .vstr ""
                    notify_ref := if ne.truthy then ern else "" } } := by
  by_cases hd : durationTooLong dh = true
  · simp [set_settings, hd]
  · by_cases hne : ne.truthy = true
    · by_cases hie : ie ne = true
      · simp [set_settings, pwChoice, hd, hne, hie]
      · simp [set_settings, pwChoice, hd, hne, Bool.eq_false_iff.mpr hie]
    · simp [set_settings, pwChoice, hd, Bool.eq_false_iff.mpr hne]

/-- Helper state used by the C2 theorems: a transport that never answers. -/
def noHttp : HttpCall → Option PNResponse :=
  fun _ => none

/-- C1 counterexample state: a parsed response whose `data` key is present
but holds the empty string. -/
def C1resp : PNResponse :=
  { data := some (.vstr "") }

/-- C1 witness state: a parsed response with only a truthy `destroyed`
timestamp. -/
def C1destroyedResp : PNResponse :=
  { destroyed := some (.vstr "2024-01-01T00:00:00.000000") }

/-- C1 (counterexample): the claim says that whenever `data` is present the
ciphertext is stored and no error is raised, but on the response
`{"data": ""}` the code takes the falsy branch, stores nothing and raises
the generic `PrivnoteException`. -/
theorem C1_counterexample :
    (process_read_response (some C1resp) PrivMessage.new).2
      = some (.privnoteException "No data in response")
    ∧ (process_read_response (some C1resp) PrivMessage.new).1._crypt_text = none :=
  ⟨rfl, rfl⟩

/-- C1 (amended): the destructive-read response mapping with Python
truthiness in place of key presence: an unparseable body raises
`IncorrectIDException`; a truthy `data` value is stored with no error; a
falsy-or-absent `data` with a truthy well-formed `destroyed` string raises
`NoteDestroyedException` carrying the parsed timestamp; a falsy-or-absent
`data` and `destroyed` raise `PrivnoteException`. -/
theorem C1_failure_mapping (m : PrivMessage) (r : PNResponse) (s : String) (dt : DateTime) :
    process_read_response none m = (m, some (.incorrectID m._id))
    ∧ ((dictGet r.data).truthy = true →
        process_read_response (some r) m
          = ({ m with _response := some r, _crypt_text := r.data }, none))
    ∧ ((dictGet r.data).truthy = false → r.destroyed = some (.vstr s) → s ≠ "" →
        strptime_iso s = some dt →
        process_read_response (some r) m
          = ({ m with _response := some r }, some (.noteDestroyed m._id dt)))
    ∧ ((dictGet r.data).truthy = false → (dictGet r.destroyed).truthy = false →
        process_read_response (some r) m
          = ({ m with _response := some r }, some (.privnoteException "No data in response"))) := by
  refine ⟨rfl, ?_, ?_, ?_⟩
  · intro h
    simp [process_read_response, h]
  · intro h hd hs hp
    have hdt : (dictGet (some (PyVal.vstr s))).truthy = true := by
      simp [dictGet, PyVal.truthy, hs]
    simp [process_read_response, h, hdt, hd, hp]
  · intro h hd
    simp [process_read_response, h, hd]

/-- C1 (witness): instantiating the destroyed branch on the spec's scenario
response. -/
theorem C1_witness :
    process_read_response (some C1destroyedResp) PrivMessage.new
      = ({ PrivMessage.new with _response := some C1destroyedResp },
          some (.noteDestroyed none ⟨2024, 1, 1, 0, 0, 0, 0⟩)) :=
  (C1_failure_mapping PrivMessage.new C1destroyedResp "2024-01-01T00:00:00.000000"
      ⟨2024, 1, 1, 0, 0, 0, 0⟩).2.2.1 rfl rfl (by decide) rfl

/-- C2 counterexample state: the settings record of a configured note. -/
def C2settings : Settings :=
  ⟨"T", "false", 0, "True", .vstr "", ""⟩

/-- C2 witness state: a note whose settings and ciphertext are in place, so
that `send` reaches the name lookup of `requests`. -/
def C2note : PrivMessage :=
  { PrivMessage.new with
    _settings := some C2settings,
    _crypt_text := some (.vbytes (utf8Encode "ct")) }

/-- C2 (counterexample): the claim says every call to `send` raises
`NameError`, but on a fresh note the dict display fails first: `send`
raises `TypeError` from `{**None}` before the name `requests` is ever
resolved. -/
theorem C2_counterexample :
    send moduleBindings noHttp noHttp PrivMessage.new
      = (PrivMessage.new, [], some (.typeError "argument of type NoneType is not a mapping"))
    ∧ some (PyErr.typeError "argument of type NoneType is not a mapping")
        ≠ some (PyErr.nameError "requests") :=
  ⟨rfl, by simp⟩

/-- C2 (amended): neither method consults the module-level session (results
are independent of it); under the module's own bindings `read_and_destroy`
always raises `NameError` with no request issued and the state unchanged;
`send` raises `NameError` once its settings dict and decodable ciphertext
are in place, and in every other case a `TypeError`, `AttributeError` or
`UnicodeDecodeError` precedes the lookup — in all cases no request is
issued and the state is unchanged. -/
theorem C2_requests_unbound (env : List String) (s1 s2 http : HttpCall → Option PNResponse)
    (m : PrivMessage) (st : Settings) (b : List Nat) (pw : String) :
    read_and_destroy env s1 http m = read_and_destroy env s2 http m
    ∧ send env s1 http m = send env s2 http m
    ∧ read_and_destroy moduleBindings s1 http m = (m, [], some (.nameError "requests"))
    ∧ (send moduleBindings s1 http m).1 = m
    ∧ (send moduleBindings s1 http m).2.1 = []
    ∧ (m._settings = some st → m._crypt_text = some (.vbytes b) → utf8Decode b = some pw →
        send moduleBindings s1 http m = (m, [], some (.nameError "requests"))) := by
  refine ⟨rfl, rfl, ?_, ?_, ?_, ?_⟩
  · simp [read_and_destroy, requests_unbound]
  · cases hs : m._settings <;> cases hc : m._crypt_text <;>
      simp [send, hs, hc, requests_unbound]
    case some.some v =>
      cases v <;> simp [send, requests_unbound]
      case vbytes b' => cases hd : utf8Decode b' <;> simp [hd, requests_unbound]
      case vbytearray b' => cases hd : utf8Decode b' <;> simp [hd, requests_unbound]
  · cases hs : m._settings <;> cases hc : m._crypt_text <;>
      simp [send, hs, hc, requests_unbound]
    case some.some v =>
      cases v <;> simp [send, requests_unbound]
      case vbytes b' => cases hd : utf8Decode b' <;> simp [hd, requests_unbound]
      case vbytearray b' => cases hd : utf8Decode b' <;> simp [hd, requests_unbound]
  · intro h1 h2 h3
    simp [send, h1, h2, h3, requests_unbound]

/-- C2 (witness): a configured note reaches the unbound name and fails with
`NameError`, with no request issued and the state unchanged. -/
theorem C2_witness :
    send moduleBindings noHttp noHttp C2note = (C2note, [], some (.nameError "requests")) :=
  (C2_requests_unbound moduleBindings noHttp noHttp noHttp C2note C2settings
      (utf8Encode "ct") "ct").2.2.2.2.2 rfl rfl rfl

/-- C3: behaviour of the link setter on the spec's own scenario input.  The
guard tests the scheme-less prefix while the split removes the scheme-full
prefix, so for a canonical `https://` link the origin is never stripped and
the fragment is stored as a `str` (not bytes, since the assignment bypasses
the password property setter); for a scheme-less link the split yields a
single piece and indexing `[1]` raises `IndexError`. -/
theorem C3_link_setter_behavior :
    PrivMessage.link_set PrivMessage.new "https://privnote.com/abc123#mysecret"
      = .ok { PrivMessage.new with
              _id := some "https://privnote.com/abc123",
              _password := .vstr "mysecret" }
    ∧ PrivMessage.link_set PrivMessage.new "privnote.com/abc123#mysecret" = .error .indexError
    ∧ some "https://privnote.com/abc123" ≠ some "abc123"
    ∧ PyVal.vstr "mysecret" ≠ .vbytes (utf8Encode "mysecret") :=
  ⟨rfl, rfl, by simp, by simp⟩

/-- C4 state: a response with a manual password. -/
def C4respManual : PNResponse :=
  { note_link := some (.vstr "https://privnote.com/abc123"),
    has_manual_pass := some (.vbool true) }

/-- C4 state: a response with a generated password. -/
def C4respAuto : PNResponse :=
  { note_link := some (.vstr "https://privnote.com/abc123"),
    has_manual_pass := some (.vbool false) }

/-- C4 state: a note carrying the manual-pass response. -/
def C4noteManual : PrivMessage :=
  { PrivMessage.new with
    _response := some C4respManual,
    _password := .vbytes (utf8Encode "pw9") }

/-- C4 state: a note carrying the auto-pass response. -/
def C4noteAuto : PrivMessage :=
  { PrivMessage.new with
    _response := some C4respAuto,
    _password := .vbytes (utf8Encode "pw9") }

/-- C4: for a stored response with a string `note_link` and a boolean
`has_manual_pass`, the link getter returns `note_link` exactly when the
flag is true (for every stored password, so the secret is never embedded),
and `note_link # secret` when the flag is false and the note's secret is a
nonempty decodable byte string. -/
theorem C4_link_render (m : PrivMessage) (r : PNResponse) (nl : String) (b : Bool)
    (bs : List Nat) (pw : String)
    (h1 : m._response = some r) (h2 : r.note_link = some (.vstr nl))
    (h3 : r.has_manual_pass = some (.vbool b)) :
    (b = true → PrivMessage.link m = .ok (.vstr nl))
    ∧ (b = false → m._password = .vbytes bs → bs ≠ [] → utf8Decode bs = some pw →
        PrivMessage.link m = .ok (.vstr (nl ++ "#" ++ pw))) := by
  constructor
  · intro hb
    subst hb
    simp [PrivMessage.link, PNResponse.truthy, h1, h2, h3, PyVal.truthy]
  · intro hb hpw hbs hdec
    subst hb
    simp [PrivMessage.link, PNResponse.truthy, PrivMessage.password, h1, h2, h3,
      PyVal.truthy, PyVal.pyFormat, hpw, hbs, hdec]

/-- C4 (witness): both directions of the rendering on the scenario link. -/
theorem C4_witness :
    PrivMessage.link C4noteManual = .ok (.vstr "https://privnote.com/abc123")
    ∧ PrivMessage.link C4noteAuto = .ok (.vstr ("https://privnote.com/abc123" ++ "#" ++ "pw9")) :=
  ⟨(C4_link_render C4noteManual C4respManual "https://privnote.com/abc123" true
      (utf8Encode "pw9") "pw9" rfl rfl rfl).1 rfl,
   (C4_link_render C4noteAuto C4respAuto "https://privnote.com/abc123" false
      (utf8Encode "pw9") "pw9" rfl rfl rfl).2 rfl rfl (by simp [utf8Encode, utf8EncodeChar]) rfl⟩

/-- The duration guard fires exactly on a supplied duration above 720. -/
theorem durationTooLong_iff (dh : Option Int) :
    durationTooLong dh = true ↔ ∃ d, dh = some d ∧ 720 < d := by
  cases dh <;> simp [durationTooLong]

/-- C5 counterexample state: the settings record built for duration -1. -/
def C5negSt : Settings :=
  ⟨"T", "false", -1, "False", .vstr "", ""⟩

/-- C5 counterexample state: the note produced for duration -1. -/
def C5negNote : PrivMessage :=
  { PrivMessage.new with
    _plain_text := some "d",
    _password := .vbytes (utf8Encode "genpw"),
    _settings := some C5negSt }

/-- C5 witness state: the settings record built for duration 720. -/
def C5okSt : Settings :=
  ⟨"T", "false", 720, "False", .vstr "", ""⟩

/-- C5 witness state: the note produced for duration 720. -/
def C5okNote : PrivMessage :=
  { PrivMessage.new with
    _plain_text := some "d",
    _password := .vbytes (utf8Encode "genpw"),
    _settings := some C5okSt }

/-- C5 (counterexample): the claim says every produced settings record has
`duration_hours` in [0, 720], but `set_settings` accepts -1 without
raising and stores -1. -/
theorem C5_counterexample :
    set_settings (fun _ => false) "genpw" PrivMessage.new "d" (.vbool false) (some (-1))
        true (.vbool false) ""
      = .ok C5negNote
    ∧ C5negNote._settings = some C5negSt
    ∧ ¬ (0 ≤ C5negSt.duration_hours) :=
  ⟨rfl, rfl, by simp [C5negSt]⟩

/-- C5 (amended): `set_settings` raises the duration validation error
exactly when a supplied duration exceeds 720 (so 721 fails while 720, 0
and an omitted duration do not trip this guard); every settings record it
produces carries `duration_hours` equal to the supplied value (0 when
omitted), which is at most 720 but is only bounded below by 0 when the
supplied value is nonnegative. -/
theorem C5_duration_validation (ie : PyVal → Bool) (gen : String) (m : PrivMessage)
    (data : String) (mp : PyVal) (dh : Option Int) (ac : Bool) (ne : PyVal) (ern : String) :
    (set_settings ie gen m data mp dh ac ne ern
        = .error (.valueError "Duration hours cannot exceed 720.")
      ↔ ∃ d, dh = some d ∧ 720 < d)
    ∧ (∀ m', set_settings ie gen m data mp dh ac ne ern = .ok m' →
        ∀ st, m'._settings = some st →
          st.duration_hours = dh.getD 0 ∧ st.duration_hours ≤ 720
          ∧ (0 ≤ dh.getD 0 → 0 ≤ st.duration_hours)) := by
  rw [set_settings_characterization]
  constructor
  · constructor
    · intro hres
      by_cases hd : durationTooLong dh = true
      · exact (durationTooLong_iff dh).mp hd
      · exfalso
        rw [if_neg hd] at hres
        by_cases hne : ne.truthy = true ∧ ie ne = false
        · rw [if_pos hne] at hres
          injection hres with h1
          injection h1 with h2
          exact absurd h2 (by decide)
        · rw [if_neg hne] at hres
          exact Except.noConfusion hres
    · intro hex
      rw [if_pos ((durationTooLong_iff dh).mpr hex)]
  · intro m' hok st hst
    by_cases hd : durationTooLong dh = true
    · rw [if_pos hd] at hok
      exact Except.noConfusion hok
    · rw [if_neg hd] at hok
      by_cases hne : ne.truthy = true ∧ ie ne = false
      · rw [if_pos hne] at hok
        exact Except.noConfusion hok
      · rw [if_neg hne] at hok
        injection hok with h1
        subst h1
        simp only [] at hst
        injection hst with h2
        subst h2
        refine ⟨rfl, ?_, fun h0 => h0⟩
        cases dh with
        | none => simp
        | some d =>
          simp [durationTooLong] at hd
          simpa using hd

/-- C5 (witness): 721 trips the duration guard; 720 is accepted and stored. -/
theorem C5_witness :
    set_settings (fun _ => false) "genpw" PrivMessage.new "d" (.vbool false) (some 721)
        true (.vbool false) ""
      = .error (.valueError "Duration hours cannot exceed 720.")
    ∧ (C5okSt.duration_hours = (some (720 : Int)).getD 0 ∧ C5okSt.duration_hours ≤ 720
        ∧ (0 ≤ (some (720 : Int)).getD 0 → 0 ≤ C5okSt.duration_hours)) :=
  ⟨(C5_duration_validation (fun _ => false) "genpw" PrivMessage.new "d" (.vbool false)
      (some 721) true (.vbool false) "").1.mpr ⟨721, rfl, by decide⟩,
   (C5_duration_validation (fun _ => false) "genpw" PrivMessage.new "d" (.vbool false)
      (some 720) true (.vbool false) "").2 C5okNote rfl C5okSt rfl⟩

/-- C6 (counterexample): on a note with no secret, a primitive value-domain
failure surfaces as `IncorrectPasswordException` — the incorrect-secret
error — not as any secret-required error. -/
theorem C6_counterexample :
    decrypt .valueError PrivMessage.new = .error (.incorrectPassword none)
    ∧ (Except.error (PyErr.incorrectPassword none) : Except PyErr PrivMessage)
        ≠ .error .secretRequired
    ∧ encrypt .valueError PrivMessage.new = .error (.incorrectPassword none) :=
  ⟨rfl, by simp, rfl⟩

/-- C6 (amended): `decrypt` and `encrypt` contain no guard on a null
secret: the primitive is invoked regardless, a `ValueError` from it is
surfaced as `IncorrectPasswordException`, any other primitive failure
propagates as that failure, and no execution produces a secret-required
error. -/
theorem C6_no_secret_guard (dp : DecOutcome) (ep : EncOutcome) (m : PrivMessage)
    (_hp : m._password = .vnone) :
    decrypt dp m ≠ .error .secretRequired
    ∧ encrypt ep m ≠ .error .secretRequired
    ∧ (dp = .valueError → decrypt dp m = .error (.incorrectPassword m._id))
    ∧ (ep = .valueError → encrypt ep m = .error (.incorrectPassword m._id)) := by
  refine ⟨?_, ?_, ?_, ?_⟩
  · cases dp <;> simp [decrypt]
  · cases ep <;> simp [encrypt]
  · intro h
    subst h
    rfl
  · intro h
    subst h
    rfl

/-- C6 (witness): the amended behaviour on a fresh note with no secret. -/
theorem C6_witness :
    decrypt .valueError PrivMessage.new ≠ .error .secretRequired
    ∧ decrypt .valueError PrivMessage.new = .error (.incorrectPassword none) :=
  ⟨(C6_no_secret_guard .valueError .valueError PrivMessage.new rfl).1,
   (C6_no_secret_guard .valueError .valueError PrivMessage.new rfl).2.2.1 rfl⟩

/-- C7: whenever the cipher primitive rejects its input with a value-domain
error, `decrypt` surfaces exactly `IncorrectPasswordException` carrying the
note's stored identifier — never a generic parse or protocol error. -/
theorem C7_incorrect_secret_mapping (m : PrivMessage) :
    decrypt .valueError m = .error (.incorrectPassword m._id) :=
  rfl

/-- C8 counterexample state: settings record for an empty manual pass. -/
def C8emptySt : Settings :=
  ⟨"T", "false", 0, "False", .vstr "", ""⟩

/-- C8 counterexample state: note produced for an empty manual pass. -/
def C8emptyNote : PrivMessage :=
  { PrivMessage.new with
    _plain_text := some "d",
    _password := .vbytes [],
    _settings := some C8emptySt }

/-- C8 witness state: settings record for the manual pass "manual". -/
def C8manSt : Settings :=
  ⟨"T", "true", 0, "False", .vstr "", ""⟩

/-- C8 witness state: note produced for the manual pass "manual". -/
def C8manNote : PrivMessage :=
  { PrivMessage.new with
    _plain_text := some "hello",
    _password := .vbytes (utf8Encode "manual"),
    _settings := some C8manSt }

/-- C8 counterexample state: settings record for a bytearray manual pass. -/
def C8baSt : Settings :=
  ⟨"T", "true", 0, "False", .vstr "", ""⟩

/-- C8 counterexample state: note produced for a bytearray manual pass. -/
def C8baNote : PrivMessage :=
  { PrivMessage.new with
    _plain_text := some "d",
    _password := .vbytes (utf8Encode "gen9pass"),
    _settings := some C8baSt }

/-- C8 (counterexample): the flag does not record which secret backs the
note, in both directions.  With `manual_pass = ""` the caller-supplied
empty secret becomes the note's password (it is a `str`, so it is chosen
and stored encoded), yet `has_manual_pass` is `"false"` because the flag
follows truthiness.  With a truthy bytearray manual pass, the
`isinstance(manual_pass, (str, bytes))` check fails (bytearray is not a
subclass of bytes), so the generated password backs the note, yet the flag
is `"true"`. -/
theorem C8_counterexample :
    set_settings (fun _ => false) "gen9pass" PrivMessage.new "d" (.vstr "") none
        true (.vbool false) ""
      = .ok C8emptyNote
    ∧ C8emptyNote._password = .vbytes (utf8Encode "")
    ∧ C8emptySt.has_manual_pass = "false"
    ∧ utf8Encode "" ≠ utf8Encode "gen9pass"
    ∧ set_settings (fun _ => false) "gen9pass" PrivMessage.new "d"
        (.vbytearray (utf8Encode "mine")) none true (.vbool false) ""
      = .ok C8baNote
    ∧ C8baNote._password = .vbytes (utf8Encode "gen9pass")
    ∧ C8baSt.has_manual_pass = "true"
    ∧ PyVal.vbytes (utf8Encode "gen9pass") ≠ .vbytearray (utf8Encode "mine") :=
  ⟨rfl, rfl, rfl, by simp [utf8Encode, utf8EncodeChar], rfl, rfl, rfl, by simp⟩

/-- C8 (amended): on every successful `set_settings` call, exactly one of
the caller-supplied value (when it passes `isinstance(manual_pass,
(str, bytes))` — a bytearray does not) or the generated password
(otherwise, bytearray included) becomes the note's password, and
`has_manual_pass` is `"true"` if and only if `manual_pass` is truthy —
which coincides with "the caller-supplied secret backs the note" only when
`manual_pass` is neither a falsy str/bytes value nor a truthy value
outside str/bytes (such as a nonempty bytearray). -/
theorem C8_manual_pass_flag (ie : PyVal → Bool) (gen : String) (m : PrivMessage)
    (data : String) (mp : PyVal) (dh : Option Int) (ac : Bool) (ne : PyVal) (ern : String)
    (m' : PrivMessage)
    (hok : set_settings ie gen m data mp dh ac ne ern = .ok m') :
    (isStrOrBytes mp = true → m'._password = pwBytesOf mp)
    ∧ (isStrOrBytes mp = false → m'._password = .vbytes (utf8Encode gen))
    ∧ ∀ st, m'._settings = some st → (st.has_manual_pass = "true" ↔ mp.truthy = true) := by
  rw [set_settings_characterization] at hok
  by_cases hd : durationTooLong dh = true
  · rw [if_pos hd] at hok
    exact Except.noConfusion hok
  · rw [if_neg hd] at hok
    by_cases hne : ne.truthy = true ∧ ie ne = false
    · rw [if_pos hne] at hok
      exact Except.noConfusion hok
    · rw [if_neg hne] at hok
      injection hok with h1
      subst h1
      refine ⟨?_, ?_, ?_⟩
      · intro hmp
        cases mp <;>
          simp_all [isStrOrBytes, pwChoice, pwBytesOf, PrivMessage.password_set]
      · intro hmp
        cases mp <;>
          simp_all [isStrOrBytes, pwChoice, PrivMessage.password_set]
      · intro st hst
        simp only [] at hst
        injection hst with h2
        subst h2
        cases hmpt : mp.truthy <;> simp [hmpt]

/-- C8 (witness): the consistent case of a nonempty manual pass. -/
theorem C8_witness :
    C8manNote._password = pwBytesOf (.vstr "manual")
    ∧ (C8manSt.has_manual_pass = "true" ↔ (PyVal.vstr "manual").truthy = true) :=
  ⟨(C8_manual_pass_flag (fun _ => false) "gen9pass" PrivMessage.new "hello" (.vstr "manual")
      none true (.vbool false) "" C8manNote rfl).1 rfl,
   (C8_manual_pass_flag (fun _ => false) "gen9pass" PrivMessage.new "hello" (.vstr "manual")
      none true (.vbool false) "" C8manNote rfl).2.2 C8manSt rfl⟩

/-- C9 (counterexample): the claim says that after setting the id, reading
each view returns values denoting the same note; but on a note with no
server response, setting the id and then reading the link raises
`TypeError` — the link getter consults only the stored server response and
ignores both `_id` and the `_link` the id setter wrote. -/
theorem C9_counterexample :
    PrivMessage.link (PrivMessage.id_set PrivMessage.new "abc123")
      = .error (.typeError "NoneType object is not subscriptable")
    ∧ (PrivMessage.id_set PrivMessage.new "abc123")._id = some "abc123"
    ∧ (PrivMessage.id_set PrivMessage.new "abc123")._link
        = some "https://privnote.com/abc123" :=
  ⟨rfl, rfl, rfl⟩

/-- C9 (amended): setting the id stores the identifier and writes the
derived link string into the private `_link` attribute, after which the id
view returns the identifier; setting the link stores the identifier parsed
from the value (and clears the secret when no fragment is present), after
which the id view returns it; but the link view is derived from the stored
server response alone, so on a note with no server response it raises
`TypeError` after either assignment instead of returning a link. -/
theorem C9_view_consistency (m : PrivMessage) (v w : String) :
    (PrivMessage.id_set m v)._id = some v
    ∧ (PrivMessage.id_set m v)._link = some ("https://privnote.com/" ++ v)
    ∧ (v ≠ "" → PrivMessage.id (PrivMessage.id_set m v) = .ok v)
    ∧ (m._response = none →
        PrivMessage.link (PrivMessage.id_set m v)
          = .error (.typeError "NoneType object is not subscriptable"))
    ∧ (strLeads w "privnote.com/" = false → w.data.contains '#' = false →
        PrivMessage.link_set m w = .ok { m with _id := some w, _password := .vnone })
    ∧ (w ≠ "" →
        PrivMessage.id { m with _id := some w, _password := .vnone } = .ok w) := by
  refine ⟨rfl, rfl, ?_, ?_, ?_, ?_⟩
  · intro hv
    simp [PrivMessage.id, PrivMessage.id_set, hv]
  · intro hr
    simp [PrivMessage.link, PrivMessage.id_set, hr]
  · intro h1 h2
    have h2' : ¬ ('#' ∈ w.data) := by simpa using h2
    simp [PrivMessage.link_set, h1, h2, h2']
  · intro hw
    simp [PrivMessage.id, hw]

/-- C9 (witness): both assignments on a fresh note: the id view follows
them, the link view raises. -/
theorem C9_witness :
    PrivMessage.id (PrivMessage.id_set PrivMessage.new "abc123") = .ok "abc123"
    ∧ PrivMessage.link_set PrivMessage.new "xyz"
        = .ok { PrivMessage.new with _id := some "xyz", _password := .vnone }
    ∧ PrivMessage.link (PrivMessage.id_set PrivMessage.new "abc123")
        = .error (.typeError "NoneType object is not subscriptable") :=
  ⟨(C9_view_consistency PrivMessage.new "abc123" "xyz").2.2.1 (by decide),
   (C9_view_consistency PrivMessage.new "abc123" "xyz").2.2.2.2.1 rfl rfl,
   (C9_view_consistency PrivMessage.new "abc123" "xyz").2.2.2.1 rfl⟩

/-- C10: assigning a value that is neither str nor bytes nor bytearray to
the password property falls through both `isinstance` branches: no error is
raised and the entire state — in particular the previously stored secret —
is unchanged. -/
theorem C10_password_setter_noop (m : PrivMessage) (v : PyVal)
    (h : isStrOrByteLike v = false) :
    PrivMessage.password_set m v = m := by
  cases v <;> simp_all [PrivMessage.password_set, isStrOrByteLike]

/-- C10 (witness): assigning an int to the password of a note with a stored
secret leaves the state, and hence the secret, unchanged. -/
theorem C10_witness :
    isStrOrByteLike (.vint 5) = false
    ∧ PrivMessage.password_set { PrivMessage.new with _password := .vbytes [1, 2] } (.vint 5)
        = { PrivMessage.new with _password := .vbytes [1, 2] } :=
  ⟨rfl, C10_password_setter_noop { PrivMessage.new with _password := .vbytes [1, 2] }
    (.vint 5) rfl⟩

end PyPrivnote

